import Mathlib

/-!
Verification development for the Playwright example repository
(Page Object / Component Object layer, interceptor and context scenarios,
SOLID demonstration classes).

Shallow embedding:
* A `Locator` is a deferred query: a syntax tree of the selection
  combinators used by the source (`getByTestId`, `locator(css)`,
  `getByRole`, `.or`, `.first`, `.filter({hasText})`, chaining, `.nth`).
* A `PageState` interprets atomic queries as element lists (DOM order) and
  carries a descendant relation for chained locators plus a `closed` flag
  modelling a torn-down page, the fault source for visibility checks.
* Operations run in `PwM`, a state-reader with an error (`Except`) and a
  trace of user-facing actions; a raised error aborts the scenario, so an
  errored run carries no trace.  Locator resolution semantics (auto-wait
  timeout on interacting with an absent element, `isVisible` returning
  `false` without waiting, `count` not waiting) follows the framework
  behaviour the source relies on; strict-mode multi-match arbitration is
  abstracted away (actions act on the first match).
-/

set_option autoImplicit false

/-- A DOM element: identity, text content and visibility. -/
structure Element where
  eid : Nat
  text : String
  visible : Bool
  deriving DecidableEq, Repr

/-- Atomic selection strategies used by the source constructors. -/
inductive Atomic where
  | testId (id : String)
  | css (sel : String)
  | role (r : String) (name : Option String)
  | placeholder (p : String)
  | label (l : String)
  | text (pat : String)
  deriving DecidableEq, Repr

/-- A Locator Reference: a deferred query built from the framework
combinators, never resolved at construction time. -/
inductive Locator where
  | atomic (q : Atomic)
  | orElse (a b : Locator)
  | first (a : Locator)
  | nth (a : Locator) (n : Nat)
  | filterHasText (a : Locator) (pat : String)
  | child (a b : Locator)
  deriving DecidableEq, Repr

/-- The page at one instant: how atomic queries resolve, which elements are
descendants of which, and whether the page has been torn down. -/
structure PageState where
  find : Atomic → List Element
  inside : Nat → Nat → Bool
  closed : Bool

/-- `charsStartWith hay pat`: `pat` is an initial segment of `hay`. -/
def charsStartWith : List Char → List Char → Bool
  | _, [] => true
  | [], _ :: _ => false
  | h :: t, p :: ps => h == p && charsStartWith t ps

/-- `charsContain hay pat`: `pat` occurs contiguously inside `hay`. -/
def charsContain : List Char → List Char → Bool
  | [], pat => pat.isEmpty
  | h :: t, pat => charsStartWith (h :: t) pat || charsContain t pat

/-- Substring test used to interpret `hasText` filters. -/
def strContains (hay pat : String) : Bool :=
  charsContain hay.data pat.data

/-- Resolution of a deferred query against the current page (lazy: this is
only ever invoked by actions and assertions, never by constructors). -/
def Locator.resolve : Locator → PageState → List Element
  | .atomic q, st => st.find q
  | .orElse a b, st => a.resolve st ++ b.resolve st
  | .first a, st => (a.resolve st).take 1
  | .nth a n, st => ((a.resolve st).drop n).take 1
  | .filterHasText a pat, st => (a.resolve st).filter (fun e => strContains e.text pat)
  | .child a b, st =>
      (b.resolve st).filter (fun e => (a.resolve st).any (fun p => st.inside e.eid p.eid))

/-- Faults an operation can raise. -/
inductive PwError where
  | timeout
  | pageClosed
  | notImplemented (msg : String)
  | assertionFailed (msg : String)
  deriving DecidableEq, Repr

/-- User-facing actions and other observable effects emitted by operations. -/
inductive Effect where
  | click (l : Locator)
  | fill (l : Locator) (v : String)
  | press (key : String)
  | selectOption (l : Locator) (v : String)
  | check (l : Locator)
  | scrollIntoView (l : Locator)
  | gotoUrl (u : String)
  | consoleLog (msg : String)
  | apiPost (url : String) (body : String)
  deriving DecidableEq, Repr

/-- The scenario monad: read the page state, either fail or return a value
together with the list of actions performed. -/
def PwM (α : Type) : Type :=
  PageState → Except PwError (α × List Effect)

def PwM.pure {α : Type} (a : α) : PwM α := fun _ => .ok (a, [])

def PwM.bind {α β : Type} (m : PwM α) (f : α → PwM β) : PwM β := fun st =>
  match m st with
  | .error e => .error e
  | .ok (a, tr) =>
    match f a st with
    | .error e => .error e
    | .ok (b, tr2) => .ok (b, tr ++ tr2)

instance : Monad PwM where
  pure := PwM.pure
  bind := PwM.bind

@[simp] theorem PwM.bind_def {α β : Type} (m : PwM α) (f : α → PwM β) :
    (m >>= f) = PwM.bind m f := rfl

@[simp] theorem PwM.pure_def {α : Type} (a : α) :
    (Pure.pure a : PwM α) = PwM.pure a := rfl

/-- Actions performed by a finished run (an aborted run performed none of
the actions that were still pending). -/
def traceOf {α : Type} : Except PwError (α × List Effect) → List Effect
  | .error _ => []
  | .ok (_, tr) => tr

/-- `locator.count()`: resolve now, no waiting, no action. -/
def Locator.count (l : Locator) : PwM Nat := fun st =>
  if st.closed then .error .pageClosed
  else .ok ((l.resolve st).length, [])

/-- `locator.click()`: auto-waits, so an absent target times out. -/
def Locator.click (l : Locator) : PwM Unit := fun st =>
  if st.closed then .error .pageClosed
  else
    match l.resolve st with
    | [] => .error .timeout
    | _ => .ok ((), [.click l])

/-- `locator.fill(v)`: auto-waits, so an absent target times out. -/
def Locator.fill (l : Locator) (v : String) : PwM Unit := fun st =>
  if st.closed then .error .pageClosed
  else
    match l.resolve st with
    | [] => .error .timeout
    | _ => .ok ((), [.fill l v])

/-- `locator.selectOption(v)`. -/
def Locator.selectOption (l : Locator) (v : String) : PwM Unit := fun st =>
  if st.closed then .error .pageClosed
  else
    match l.resolve st with
    | [] => .error .timeout
    | _ => .ok ((), [.selectOption l v])

/-- `locator.check()`. -/
def Locator.checkBox (l : Locator) : PwM Unit := fun st =>
  if st.closed then .error .pageClosed
  else
    match l.resolve st with
    | [] => .error .timeout
    | _ => .ok ((), [.check l])

/-- `locator.scrollIntoViewIfNeeded()`. -/
def Locator.scrollIntoViewIfNeeded (l : Locator) : PwM Unit := fun st =>
  if st.closed then .error .pageClosed
  else
    match l.resolve st with
    | [] => .error .timeout
    | _ => .ok ((), [.scrollIntoView l])

/-- `locator.isVisible()`: does not wait and does not fail on absence, but
does fail on a torn-down page (the fault the source suppresses). -/
def Locator.isVisibleRaw (l : Locator) : PwM Bool := fun st =>
  if st.closed then .error .pageClosed
  else
    match l.resolve st with
    | [] => .ok (false, [])
    | e :: _ => .ok (e.visible, [])

/-- `locator.textContent()`: auto-waits, an absent target times out;
returns the first matched element's text. -/
def Locator.textContent (l : Locator) : PwM (Option String) := fun st =>
  if st.closed then .error .pageClosed
  else
    match l.resolve st with
    | [] => .error .timeout
    | e :: _ => .ok (some e.text, [])

/-- `page.keyboard.press(key)`. -/
def Keyboard.press (key : String) : PwM Unit := fun st =>
  if st.closed then .error .pageClosed
  else .ok ((), [.press key])

/-- `.catch(() => false)` applied to a boolean promise: any underlying
fault is suppressed into the value `false`. -/
def PwM.catchFalse (m : PwM Bool) : PwM Bool := fun st =>
  match m st with
  | .error _ => .ok (false, [])
  | .ok r => .ok r

/-!  Component Objects, translated from `components/HeaderComponent.js` and
`components/FooterComponent.js`. -/

/-- The locator fields assigned by the `HeaderComponent` constructor. -/
structure HeaderComponent where
  logo : Locator
  searchInput : Locator
  userMenu : Locator
  logoutBtn : Locator
  navigationLinks : Locator
  deriving DecidableEq, Repr

/-- The locator values the `HeaderComponent` constructor builds:
`getByTestId('logo').or(locator('header').getByRole('link').first())` and
so on, combinator for combinator. -/
def HeaderComponent.build : HeaderComponent where
  logo := .orElse (.atomic (.testId "logo"))
    (.first (.child (.atomic (.css "header")) (.atomic (.role "link" none))))
  searchInput := .orElse (.atomic (.testId "search"))
    (.orElse (.atomic (.css "input[type=\"search\"]")) (.atomic (.placeholder "Search")))
  userMenu := .orElse (.atomic (.testId "user-menu"))
    (.atomic (.css "[data-testid=\"user-menu\"]"))
  logoutBtn := .orElse (.atomic (.testId "logout"))
    (.atomic (.role "button" (some "logout")))
  navigationLinks := .atomic (.css "header nav a")

/-- `new HeaderComponent(page)`: runs in the scenario, assigns the deferred
locators, interacts with nothing. -/
def HeaderComponent.create : PwM HeaderComponent :=
  PwM.pure HeaderComponent.build

/-- `clickLogo()`: clicks the logo with no presence check. -/
def HeaderComponent.clickLogo (h : HeaderComponent) : PwM Unit :=
  h.logo.click

/-- `search(query)`: presence-checked fill followed by pressing Enter. -/
def HeaderComponent.search (h : HeaderComponent) (query : String) : PwM Unit := do
  let c ← h.searchInput.count
  if c > 0 then
    h.searchInput.fill query
    Keyboard.press "Enter"

/-- `openUserMenu()`: presence-checked click. -/
def HeaderComponent.openUserMenu (h : HeaderComponent) : PwM Unit := do
  let c ← h.userMenu.count
  if c > 0 then
    h.userMenu.click

/-- `logout()`: open the user menu, then presence-checked click. -/
def HeaderComponent.logout (h : HeaderComponent) : PwM Unit := do
  h.openUserMenu
  let c ← h.logoutBtn.count
  if c > 0 then
    h.logoutBtn.click

/-- `navigateTo(linkText)`: filter the navigation links by text, then
presence-checked click. -/
def HeaderComponent.navigateTo (h : HeaderComponent) (linkText : String) : PwM Unit := do
  let link := h.navigationLinks.filterHasText linkText
  let c ← link.count
  if c > 0 then
    link.click

/-- `isVisible()`: `this.logo.isVisible().catch(() => false)`. -/
def HeaderComponent.isVisible (h : HeaderComponent) : PwM Bool :=
  h.logo.isVisibleRaw.catchFalse

/-- The locator fields assigned by the `FooterComponent` constructor. -/
structure FooterComponent where
  footer : Locator
  footerLinks : Locator
  copyrightText : Locator
  socialLinks : Locator
  deriving DecidableEq, Repr

/-- The locator values the `FooterComponent` constructor builds. -/
def FooterComponent.build : FooterComponent where
  footer := .atomic (.css "footer")
  footerLinks := .atomic (.css "footer a")
  copyrightText := .child (.atomic (.css "footer")) (.atomic (.text "copyright|Â©"))
  socialLinks := .atomic (.css "footer [data-testid*=\"social\"]")

/-- `new FooterComponent(page)`. -/
def FooterComponent.create : PwM FooterComponent :=
  PwM.pure FooterComponent.build

/-- `clickLink(linkText)`: filter by text, presence-checked click. -/
def FooterComponent.clickLink (f : FooterComponent) (linkText : String) : PwM Unit := do
  let link := f.footerLinks.filterHasText linkText
  let c ← link.count
  if c > 0 then
    link.click

/-- `getCopyrightText()`: presence-checked text extraction, else null. -/
def FooterComponent.getCopyrightText (f : FooterComponent) : PwM (Option String) := do
  let c ← f.copyrightText.count
  if c > 0 then
    f.copyrightText.textContent
  else
    pure none

/-- `clickSocialLink(platform)`: filter by platform pattern,
presence-checked click. -/
def FooterComponent.clickSocialLink (f : FooterComponent) (platform : String) : PwM Unit := do
  let socialLink := f.socialLinks.filterHasText platform
  let c ← socialLink.count
  if c > 0 then
    socialLink.click

/-- `isVisible()`: `this.footer.isVisible().catch(() => false)`. -/
def FooterComponent.isVisible (f : FooterComponent) : PwM Bool :=
  f.footer.isVisibleRaw.catchFalse

/-- Helper for `getAllLinks()`: the `for (let i = 0; ...)` loop body,
reading `footerLinks.nth(i).textContent()` for each listed index. -/
def textsAt (l : Locator) : List Nat → PwM (List (Option String))
  | [] => PwM.pure []
  | i :: is => do
    let t ← (l.nth i).textContent
    let ts ← textsAt l is
    pure (t :: ts)

/-- `getAllLinks()`: read `count`, then collect each link's text. -/
def FooterComponent.getAllLinks (f : FooterComponent) : PwM (List (Option String)) := do
  let c ← f.footerLinks.count
  textsAt f.footerLinks (List.range c)

/-!  Page Objects, translated from `pages/BasePage.js`, `pages/ProductPage.js`,
`pages/LoginPage.js`, `pages/DashboardPage.js`.  The `header` and `footer`
fields are `Option`-valued because a JavaScript field exists only once the
constructor has assigned it; the constructor theorems show the assignment
happens eagerly. -/

/-- Fields assigned by the `BasePage` constructor. -/
structure BasePage where
  header : Option HeaderComponent
  footer : Option FooterComponent
  deriving DecidableEq, Repr

/-- `new BasePage(page)`: constructs one `HeaderComponent` and one
`FooterComponent`, eagerly. -/
def BasePage.create : PwM BasePage := do
  let h ← HeaderComponent.create
  let f ← FooterComponent.create
  pure { header := some h, footer := some f }

/-- Fields assigned by the `ProductPage` constructor (on top of the
inherited `BasePage` fields). -/
structure ProductPage where
  base : BasePage
  addToCartBtn : Locator
  productTitle : Locator
  productPrice : Locator
  productDescription : Locator
  quantityInput : Locator
  sizeSelector : Locator
  colorSelector : Locator
  reviewsSection : Locator
  deriving DecidableEq, Repr

/-- The locator values the `ProductPage` constructor builds. -/
def ProductPage.fields (b : BasePage) : ProductPage where
  base := b
  addToCartBtn := .atomic (.role "button" (some "add to cart|add to bag"))
  productTitle := .atomic (.css "h1, [data-testid=\"product-title\"]")
  productPrice := .atomic (.css "[data-testid=\"price\"], .price")
  productDescription := .atomic (.css "[data-testid=\"description\"], .product-description")
  quantityInput := .atomic (.css "input[type=\"number\"], [data-testid=\"quantity\"]")
  sizeSelector := .atomic (.css "select[name=\"size\"], [data-testid=\"size-select\"]")
  colorSelector := .atomic (.css "[data-testid=\"color-select\"], .color-selector")
  reviewsSection := .atomic (.css ".reviews, [data-testid=\"reviews\"]")

/-- `new ProductPage(page)`: `super(page)` then the field assignments. -/
def ProductPage.create : PwM ProductPage := do
  let b ← BasePage.create
  pure (ProductPage.fields b)

/-- `addToCart()`: presence-checked click on the add-to-cart button. -/
def ProductPage.addToCart (p : ProductPage) : PwM Unit := do
  let c ← p.addToCartBtn.count
  if c > 0 then
    p.addToCartBtn.click

/-- The `options` object of `addToCartWithOptions`. -/
structure CartOptions where
  quantity : Option Nat := none
  size : Option String := none
  color : Option String := none
  deriving DecidableEq, Repr

/-- JavaScript truthiness of `options.quantity` (absent and `0` are falsy). -/
def truthyNat : Option Nat → Bool
  | none => false
  | some n => n != 0

/-- JavaScript truthiness of a string option (absent and `''` are falsy). -/
def truthyStr : Option String → Bool
  | none => false
  | some s => s != ""

/-- The color option control: `this.colorSelector.locator([data-color="c"])`. -/
def ProductPage.colorOption (p : ProductPage) (c : String) : Locator :=
  .child p.colorSelector (.atomic (.css ("[data-color=\"" ++ c ++ "\"]")))

/-- The quantity block of `addToCartWithOptions` (inline in the source):
`if (options.quantity && await this.quantityInput.count() > 0) fill(...)`.
The `&&` short-circuits, so the control is only counted when the value is
truthy. -/
def ProductPage.applyQuantity (p : ProductPage) (options : CartOptions) : PwM Unit := do
  if truthyNat options.quantity then
    let c ← p.quantityInput.count
    if c > 0 then
      p.quantityInput.fill (toString (options.quantity.getD 0))

/-- The size block of `addToCartWithOptions` (inline in the source):
`if (options.size && await this.sizeSelector.count() > 0) selectOption(...)`. -/
def ProductPage.applySize (p : ProductPage) (options : CartOptions) : PwM Unit := do
  if truthyStr options.size then
    let c ← p.sizeSelector.count
    if c > 0 then
      p.sizeSelector.selectOption (options.size.getD "")

/-- The color block of `addToCartWithOptions` (inline in the source): the
selector must exist AND the specific `[data-color=...]` option inside it
must exist before the click. -/
def ProductPage.applyColor (p : ProductPage) (options : CartOptions) : PwM Unit := do
  if truthyStr options.color then
    let c ← p.colorSelector.count
    if c > 0 then
      let colorOption := p.colorOption (options.color.getD "")
      let c2 ← colorOption.count
      if c2 > 0 then
        colorOption.click

/-- `addToCartWithOptions(options)`: the three option blocks in source
order, then `addToCart()` unconditionally. -/
def ProductPage.addToCartWithOptions (p : ProductPage) (options : CartOptions) : PwM Unit := do
  p.applyQuantity options
  p.applySize options
  p.applyColor options
  p.addToCart

/-- `getProductTitle()`: presence-checked text extraction, else null. -/
def ProductPage.getProductTitle (p : ProductPage) : PwM (Option String) := do
  let c ← p.productTitle.count
  if c > 0 then
    p.productTitle.textContent
  else
    pure none

/-- `getProductPrice()`. -/
def ProductPage.getProductPrice (p : ProductPage) : PwM (Option String) := do
  let c ← p.productPrice.count
  if c > 0 then
    p.productPrice.textContent
  else
    pure none

/-- `isLoaded()`: `this.productTitle.isVisible().catch(() => false)`. -/
def ProductPage.isLoaded (p : ProductPage) : PwM Bool :=
  p.productTitle.isVisibleRaw.catchFalse

/-- Fields assigned by the `LoginPage` constructor. -/
structure LoginPage where
  emailInput : Locator
  passwordInput : Locator
  submitButton : Locator
  errorMessage : Locator
  forgotPasswordLink : Locator
  rememberMeCheckbox : Locator
  deriving DecidableEq, Repr

/-- The locator values the `LoginPage` constructor builds. -/
def LoginPage.build : LoginPage where
  emailInput := .orElse (.atomic (.label "Email")) (.atomic (.css "input[type=\"email\"]"))
  passwordInput := .orElse (.atomic (.label "Password")) (.atomic (.css "input[type=\"password\"]"))
  submitButton := .atomic (.role "button" (some "log in|login|sign in|signin"))
  errorMessage := .atomic (.css ".error, [role=\"alert\"], .alert-danger")
  forgotPasswordLink := .atomic (.role "link" (some "forgot password|forgot"))
  rememberMeCheckbox := .atomic (.role "checkbox" (some "remember me|remember"))

/-- `new LoginPage(page)`. -/
def LoginPage.create : PwM LoginPage :=
  PwM.pure LoginPage.build

/-- `getErrorMessage()`: presence-checked text extraction, else null. -/
def LoginPage.getErrorMessage (lp : LoginPage) : PwM (Option String) := do
  let c ← lp.errorMessage.count
  if c > 0 then
    lp.errorMessage.textContent
  else
    pure none

/-- Fields assigned by the `DashboardPage` constructor (on top of the
inherited `BasePage` fields). -/
structure DashboardPage where
  base : BasePage
  welcomeMessage : Locator
  statsCards : Locator
  recentActivity : Locator
  quickActions : Locator
  deriving DecidableEq, Repr

/-- The locator values the `DashboardPage` constructor builds. -/
def DashboardPage.fields (b : BasePage) : DashboardPage where
  base := b
  welcomeMessage := .atomic (.text "welcome|dashboard")
  statsCards := .atomic (.css ".stat-card, [data-testid*=\"stat\"]")
  recentActivity := .atomic (.css ".recent-activity, [data-testid=\"recent-activity\"]")
  quickActions := .atomic (.css ".quick-actions, [data-testid=\"quick-actions\"]")

/-- `new DashboardPage(page)`: `super(page)` then the field assignments. -/
def DashboardPage.create : PwM DashboardPage := do
  let b ← BasePage.create
  pure (DashboardPage.fields b)

/-- `getWelcomeMessage()`: presence-checked text extraction, else null. -/
def DashboardPage.getWelcomeMessage (d : DashboardPage) : PwM (Option String) := do
  let c ← d.welcomeMessage.count
  if c > 0 then
    d.welcomeMessage.textContent
  else
    pure none

/-!  SOLID demonstration classes, translated from `e2e/SOLID/OCP-Playwright.js`
(`AuthStrategy` and its two variants), the LSP example (`PageComponent` with
`Header`/`Footer`), and `e2e/SOLID/DIP-Playwright.js` (`NotificationService`
and its two variants).  Each class hierarchy is a tagged type whose `base`
tag carries the unoverridden base-class method. -/

/-- `AuthStrategy` and its subclasses. -/
inductive AuthStrategy where
  | base
  | usernamePassword (username password : String)
  | oauth (provider : String)
  deriving DecidableEq, Repr

/-- `authenticate(page)`: the base class throws; each subclass overrides. -/
def AuthStrategy.authenticate : AuthStrategy → PwM Unit
  | .base => fun _ => .error (.notImplemented "Authentication strategy not implemented")
  | .usernamePassword u p => do
      (Locator.atomic (.css "#username")).fill u
      (Locator.atomic (.css "#password")).fill p
      (Locator.atomic (.css "#login")).click
  | .oauth provider => (Locator.atomic (.css ("#oauth-" ++ provider))).click

/-- `PageComponent` and its subclasses from the LSP example. -/
inductive PageComponentKind where
  | base
  | header
  | footer
  deriving DecidableEq, Repr

/-- `isVisible()`: the base class throws; each subclass overrides. -/
def PageComponentKind.isVisible : PageComponentKind → PwM Bool
  | .base => fun _ => .error (.notImplemented "Visibility check not implemented")
  | .header => (Locator.atomic (.css "header")).isVisibleRaw
  | .footer => (Locator.atomic (.css "footer")).isVisibleRaw

/-- `NotificationService` and its subclasses. -/
inductive NotificationService where
  | base
  | consoleSvc
  | apiSvc
  deriving DecidableEq, Repr

/-- `send(message)`: the base class throws; the console variant logs, the
API variant posts then logs. -/
def NotificationService.send : NotificationService → String → PwM Unit
  | .base, _ => fun _ => .error (.notImplemented "Notification service not implemented")
  | .consoleSvc, message => fun _ => .ok ((), [.consoleLog ("NOTIFICATION: " ++ message)])
  | .apiSvc, message => fun _ =>
      .ok ((), [.apiPost "/api/notify" message, .consoleLog "API notification sent."])

/-!  The mocked `**/api/posts` route handler, translated from
`e2e/interceptor-examples.spec.js`.  A JSON object is an ordered list of
key/value pairs with unique keys (as produced by `JSON.parse`); the object
literal `{ id: 999, ...postData, userId: 1 }` starts from `id`, spreads the
payload (later keys override earlier ones), then sets `userId`. -/

/-- A JSON scalar value. -/
inductive JVal where
  | s (v : String)
  | n (v : Int)
  deriving DecidableEq, Repr

/-- A JSON object: key/value pairs in insertion order. -/
def JsObj : Type := List (String × JVal)

/-- Property lookup. -/
def JsObj.get : JsObj → String → Option JVal
  | [], _ => none
  | (k, v) :: rest, key => if k = key then some v else JsObj.get rest key

/-- Property assignment: overwrite in place if the key exists, else append. -/
def JsObj.set : JsObj → String → JVal → JsObj
  | [], key, v => [(key, v)]
  | (k, w) :: rest, key, v =>
      if k = key then (k, v) :: rest else (k, w) :: JsObj.set rest key v

/-- Object spread `{ ...base, ...obj }`: each property of `obj` assigned
into `base` in order. -/
def JsObj.spreadInto (base obj : JsObj) : JsObj :=
  obj.foldl (fun acc kv => acc.set kv.1 kv.2) base

/-- The route handler for `**/api/posts`: validate that the payload has
`title` and `body` (a failed expectation aborts), then fulfill status 201
with body `{ id: 999, ...postData, userId: 1 }`. -/
def mockPostsHandler (postData : JsObj) : Except PwError (Nat × JsObj) :=
  if (postData.get "title").isSome ∧ (postData.get "body").isSome then
    .ok (201, (JsObj.spreadInto [("id", .n 999)] postData).set "userId" (.n 1))
  else
    .error (.assertionFailed "expect(postData).toHaveProperty")

/-!  Browser-context storage state, from `e2e/context-examples.spec.js`.
The cookie store and the storage-state document live in the framework, not
in this repository; they are modelled from the spec. -/

/-- A cookie as added by `context.addCookies`. -/
structure Cookie where
  name : String
  value : String
  domain : String
  deriving DecidableEq, Repr

/-- Modelled from the spec: the browser context's cookie store (the
framework-side state behind `addCookies` / `cookies`), absent from `src/`. -/
structure BrowserContext where
  cookies : List Cookie
  deriving DecidableEq, Repr

/-- Modelled from the spec: `context.addCookies(cs)` adds the given cookies
to the context's store. -/
def BrowserContext.addCookies (ctx : BrowserContext) (cs : List Cookie) : BrowserContext :=
  { cookies := ctx.cookies ++ cs }

/-- Modelled from the spec: the persisted storage-state JSON document
(cookies, origins) written by `context.storageState({ path })`. -/
structure StorageState where
  cookies : List Cookie
  origins : List String
  deriving DecidableEq, Repr

/-- Modelled from the spec: `context.storageState` persists the context's
cookies into the document. -/
def BrowserContext.storageState (ctx : BrowserContext) : StorageState :=
  { cookies := ctx.cookies, origins := [] }

/-- Modelled from the spec: `browser.newContext({ storageState })` creates
a context whose cookie store is read back from the document. -/
def newContextFromState (s : StorageState) : BrowserContext :=
  { cookies := s.cookies }

/-!  Concrete page states used to evaluate the operations. -/

/-- A live page on which every query resolves to nothing. -/
def stEmpty : PageState where
  find := fun _ => []
  inside := fun _ _ => false
  closed := false

/-- A torn-down (closed) page: every operation on it faults. -/
def stClosed : PageState where
  find := fun _ => []
  inside := fun _ _ => false
  closed := true

/-- A live page with a search input and nothing else. -/
def stSearch : PageState where
  find := fun q => if q = .testId "search" then [⟨1, "", true⟩] else []
  inside := fun _ _ => false
  closed := false

/-- A live page with a quantity input and nothing else. -/
def stQty : PageState where
  find := fun q =>
    if q = .css "input[type=\"number\"], [data-testid=\"quantity\"]" then [⟨1, "", true⟩]
    else []
  inside := fun _ _ => false
  closed := false

/-- A live product page with every option control and the add-to-cart
button; the red color swatch (eid 4) sits inside the color selector (eid 3). -/
def stFull : PageState where
  find := fun q =>
    if q = .css "input[type=\"number\"], [data-testid=\"quantity\"]" then [⟨1, "", true⟩]
    else if q = .css "select[name=\"size\"], [data-testid=\"size-select\"]" then [⟨2, "", true⟩]
    else if q = .css "[data-testid=\"color-select\"], .color-selector" then [⟨3, "", true⟩]
    else if q = .css "[data-color=\"red\"]" then [⟨4, "", true⟩]
    else if q = .role "button" (some "add to cart|add to bag") then [⟨5, "Add to cart", true⟩]
    else []
  inside := fun e parent => e == 4 && parent == 3
  closed := false

/-- The `BasePage` value produced by `new BasePage(page)`. -/
def basePage0 : BasePage where
  header := some HeaderComponent.build
  footer := some FooterComponent.build

/-- The `ProductPage` value produced by `new ProductPage(page)`. -/
def productPage0 : ProductPage := ProductPage.fields basePage0

/-!  Shared lemmas about the scenario monad. -/

/-- An operation is silent when no run of it performs any action. -/
def silent {α : Type} (m : PwM α) : Prop :=
  ∀ st, traceOf (m st) = []

theorem silent_bind {α β : Type} {m : PwM α} {f : α → PwM β}
    (hm : silent m) (hf : ∀ a, silent (f a)) : silent (PwM.bind m f) := by
  intro st
  have h1 := hm st
  unfold PwM.bind
  cases hms : m st with
  | error e => rfl
  | ok r =>
    obtain ⟨a, tr⟩ := r
    have h1' : tr = [] := by rw [hms] at h1; simpa [traceOf] using h1
    have h2 := hf a st
    dsimp only
    cases hfs : f a st with
    | error e => rfl
    | ok r2 =>
      obtain ⟨b, tr2⟩ := r2
      have h2' : tr2 = [] := by rw [hfs] at h2; simpa [traceOf] using h2
      simp [traceOf, h1', h2']

theorem silent_pure {α : Type} (a : α) : silent (PwM.pure a) := by
  intro st; rfl

theorem silent_count (l : Locator) : silent l.count := by
  intro st; unfold Locator.count
  split <;> rfl

theorem silent_textContent (l : Locator) : silent l.textContent := by
  intro st; unfold Locator.textContent
  split
  · rfl
  · cases l.resolve st <;> rfl

theorem silent_isVisibleRaw (l : Locator) : silent l.isVisibleRaw := by
  intro st; unfold Locator.isVisibleRaw
  split
  · rfl
  · cases l.resolve st <;> rfl

theorem silent_catchFalse {m : PwM Bool} (hm : silent m) : silent m.catchFalse := by
  intro st
  have h := hm st
  unfold PwM.catchFalse
  cases hms : m st with
  | error e => rfl
  | ok r => rw [hms] at h; simpa [traceOf] using h

/-- An operation never raises the base-class `not implemented` error. -/
def noNotImpl {α : Type} (m : PwM α) : Prop :=
  ∀ st s, m st ≠ .error (.notImplemented s)

theorem noNotImpl_bind {α β : Type} {m : PwM α} {f : α → PwM β}
    (hm : noNotImpl m) (hf : ∀ a, noNotImpl (f a)) : noNotImpl (PwM.bind m f) := by
  intro st s
  unfold PwM.bind
  cases hms : m st with
  | error e =>
    have : e ≠ .notImplemented s := by
      intro he; exact hm st s (by rw [hms, he])
    simpa using this
  | ok r =>
    obtain ⟨a, tr⟩ := r
    dsimp only
    cases hfs : f a st with
    | error e =>
      have : e ≠ .notImplemented s := by
        intro he; exact hf a st s (by rw [hfs, he])
      simpa using this
    | ok r2 =>
      obtain ⟨b, tr2⟩ := r2
      simp

theorem noNotImpl_fill (l : Locator) (v : String) : noNotImpl (l.fill v) := by
  intro st s; unfold Locator.fill
  split
  · simp
  · cases l.resolve st <;> simp

theorem noNotImpl_click (l : Locator) : noNotImpl l.click := by
  intro st s; unfold Locator.click
  split
  · simp
  · cases l.resolve st <;> simp

theorem noNotImpl_isVisibleRaw (l : Locator) : noNotImpl l.isVisibleRaw := by
  intro st s; unfold Locator.isVisibleRaw
  split
  · simp
  · cases l.resolve st <;> simp

/-!  Claim theorems. -/

/-- C2: for every Page Object extending Base Page (DashboardPage,
ProductPage), the `header` and `footer` fields are assigned (non-null)
immediately after construction: the BasePage constructor eagerly builds
exactly one HeaderComponent and one FooterComponent instance, so the
constructed page's fields hold those instances. -/
theorem pages_own_header_footer_eagerly :
    ∀ st : PageState,
      DashboardPage.create st = .ok (DashboardPage.fields basePage0, []) ∧
      (DashboardPage.fields basePage0).base.header = some HeaderComponent.build ∧
      (DashboardPage.fields basePage0).base.footer = some FooterComponent.build ∧
      ProductPage.create st = .ok (productPage0, []) ∧
      productPage0.base.header = some HeaderComponent.build ∧
      productPage0.base.footer = some FooterComponent.build := by
  intro st
  exact ⟨rfl, rfl, rfl, rfl, rfl, rfl⟩

/-- C2 witness: evaluated on the concrete empty page. -/
theorem pages_own_header_footer_eagerly_witness :
    DashboardPage.create stEmpty = .ok (DashboardPage.fields basePage0, []) ∧
    (DashboardPage.fields basePage0).base.header = some HeaderComponent.build ∧
    (DashboardPage.fields basePage0).base.footer = some FooterComponent.build ∧
    ProductPage.create stEmpty = .ok (productPage0, []) ∧
    productPage0.base.header = some HeaderComponent.build ∧
    productPage0.base.footer = some FooterComponent.build :=
  pages_own_header_footer_eagerly stEmpty

/-- C6: constructing any Page Object or Component Object never resolves a
Locator Reference: every constructor returns the same built object on every
page state (so it reads nothing from the page), raises nothing, and
performs no action (empty trace); resolution happens only inside actions
and assertions (`Locator.resolve` is invoked only by the `Locator.count`,
`click`, `fill`, ... operations). -/
theorem ctors_never_resolve :
    ∀ st : PageState,
      HeaderComponent.create st = .ok (HeaderComponent.build, []) ∧
      FooterComponent.create st = .ok (FooterComponent.build, []) ∧
      LoginPage.create st = .ok (LoginPage.build, []) ∧
      BasePage.create st = .ok (basePage0, []) ∧
      ProductPage.create st = .ok (productPage0, []) ∧
      DashboardPage.create st = .ok (DashboardPage.fields basePage0, []) := by
  intro st
  exact ⟨rfl, rfl, rfl, rfl, rfl, rfl⟩

/-- C6 witness: evaluated on the concrete closed page (even a torn-down
page constructs fine, because nothing is resolved). -/
theorem ctors_never_resolve_witness :
    HeaderComponent.create stClosed = .ok (HeaderComponent.build, []) ∧
    FooterComponent.create stClosed = .ok (FooterComponent.build, []) ∧
    LoginPage.create stClosed = .ok (LoginPage.build, []) ∧
    BasePage.create stClosed = .ok (basePage0, []) ∧
    ProductPage.create stClosed = .ok (productPage0, []) ∧
    DashboardPage.create stClosed = .ok (DashboardPage.fields basePage0, []) :=
  ctors_never_resolve stClosed

/-- C8: cookie state round-trips through the storage-state document: a
cookie added to a context is present in a context re-created from the
saved storage state. -/
theorem storage_state_cookie_roundtrip :
    ∀ (ctx : BrowserContext) (c : Cookie),
      c ∈ (newContextFromState ((ctx.addCookies [c]).storageState)).cookies := by
  intro ctx c
  simp [newContextFromState, BrowserContext.storageState, BrowserContext.addCookies]

/-- C8 witness: the `auth` cookie of the scenario, round-tripped from a
fresh context. -/
theorem storage_state_cookie_roundtrip_witness :
    (⟨"auth", "token123", "example.com"⟩ : Cookie) ∈
      (newContextFromState
        ((BrowserContext.addCookies ⟨[]⟩ [⟨"auth", "token123", "example.com"⟩]).storageState)).cookies :=
  storage_state_cookie_roundtrip ⟨[]⟩ ⟨"auth", "token123", "example.com"⟩

/-- C9: each SOLID strategy base class's method always raises the
`not implemented` error, on every page state, and every subclass variant
overrides it (its method never produces that error). -/
theorem solid_base_methods_throw :
    ∀ (st : PageState) (u p prov msg : String),
      AuthStrategy.base.authenticate st =
        .error (.notImplemented "Authentication strategy not implemented") ∧
      PageComponentKind.base.isVisible st =
        .error (.notImplemented "Visibility check not implemented") ∧
      NotificationService.base.send msg st =
        .error (.notImplemented "Notification service not implemented") ∧
      (∀ s, (AuthStrategy.usernamePassword u p).authenticate st ≠ .error (.notImplemented s)) ∧
      (∀ s, (AuthStrategy.oauth prov).authenticate st ≠ .error (.notImplemented s)) ∧
      (∀ s, PageComponentKind.header.isVisible st ≠ .error (.notImplemented s)) ∧
      (∀ s, PageComponentKind.footer.isVisible st ≠ .error (.notImplemented s)) ∧
      (∀ s, NotificationService.consoleSvc.send msg st ≠ .error (.notImplemented s)) ∧
      (∀ s, NotificationService.apiSvc.send msg st ≠ .error (.notImplemented s)) := by
  intro st u p prov msg
  refine ⟨rfl, rfl, rfl, ?_, ?_, ?_, ?_, ?_, ?_⟩
  · intro s
    exact noNotImpl_bind (noNotImpl_fill _ _)
      (fun _ => noNotImpl_bind (noNotImpl_fill _ _) (fun _ => noNotImpl_click _)) st s
  · intro s
    exact noNotImpl_click _ st s
  · intro s
    exact noNotImpl_isVisibleRaw _ st s
  · intro s
    exact noNotImpl_isVisibleRaw _ st s
  · intro s
    simp [NotificationService.send]
  · intro s
    simp [NotificationService.send]

/-- C9 witness: evaluated on the concrete empty page. -/
theorem solid_base_methods_throw_witness :
    AuthStrategy.base.authenticate stEmpty =
      .error (.notImplemented "Authentication strategy not implemented") ∧
    PageComponentKind.base.isVisible stEmpty =
      .error (.notImplemented "Visibility check not implemented") ∧
    NotificationService.base.send "hi" stEmpty =
      .error (.notImplemented "Notification service not implemented") ∧
    (∀ s, (AuthStrategy.usernamePassword "user" "password").authenticate stEmpty ≠
      .error (.notImplemented s)) ∧
    (∀ s, (AuthStrategy.oauth "google").authenticate stEmpty ≠ .error (.notImplemented s)) ∧
    (∀ s, PageComponentKind.header.isVisible stEmpty ≠ .error (.notImplemented s)) ∧
    (∀ s, PageComponentKind.footer.isVisible stEmpty ≠ .error (.notImplemented s)) ∧
    (∀ s, NotificationService.consoleSvc.send "hi" stEmpty ≠ .error (.notImplemented s)) ∧
    (∀ s, NotificationService.apiSvc.send "hi" stEmpty ≠ .error (.notImplemented s)) :=
  solid_base_methods_throw stEmpty "user" "password" "google" "hi"

/-- Totality of the suppressed visibility check for one locator. -/
theorem catchFalse_isVisible_total (l : Locator) (st : PageState) :
    (∃ b, l.isVisibleRaw.catchFalse st = .ok (b, [])) ∧
    (st.closed = true → l.isVisibleRaw.catchFalse st = .ok (false, [])) := by
  unfold PwM.catchFalse Locator.isVisibleRaw
  cases hc : st.closed with
  | true => exact ⟨⟨false, rfl⟩, fun _ => rfl⟩
  | false =>
    refine ⟨?_, fun hcontra => by simp at hcontra⟩
    cases l.resolve st with
    | nil => exact ⟨false, rfl⟩
    | cons e es => exact ⟨e.visible, rfl⟩

/-- C5: every visibility check (HeaderComponent.isVisible,
FooterComponent.isVisible, ProductPage.isLoaded) returns a boolean on
every page state — never an error, never an action — and an underlying
fault (here: a torn-down page) is suppressed into `false`. -/
theorem visibility_checks_total :
    ∀ (h : HeaderComponent) (f : FooterComponent) (p : ProductPage) (st : PageState),
      (∃ b, h.isVisible st = .ok (b, [])) ∧
      (∃ b, f.isVisible st = .ok (b, [])) ∧
      (∃ b, p.isLoaded st = .ok (b, [])) ∧
      (st.closed = true →
        h.isVisible st = .ok (false, []) ∧ f.isVisible st = .ok (false, []) ∧
          p.isLoaded st = .ok (false, [])) := by
  intro h f p st
  obtain ⟨h1, h2⟩ := catchFalse_isVisible_total h.logo st
  obtain ⟨f1, f2⟩ := catchFalse_isVisible_total f.footer st
  obtain ⟨p1, p2⟩ := catchFalse_isVisible_total p.productTitle st
  exact ⟨h1, f1, p1, fun hc => ⟨h2 hc, f2 hc, p2 hc⟩⟩

/-- C5 witness: on the torn-down page every check evaluates to `false`
instead of propagating the fault. -/
theorem visibility_checks_total_witness :
    HeaderComponent.build.isVisible stClosed = .ok (false, []) ∧
    FooterComponent.build.isVisible stClosed = .ok (false, []) ∧
    productPage0.isLoaded stClosed = .ok (false, []) := by
  obtain ⟨-, -, -, himp⟩ :=
    visibility_checks_total HeaderComponent.build FooterComponent.build productPage0 stClosed
  exact himp rfl

/-- C1 counterexample: `clickLogo` is a Component Object method, yet
invoked against a page where its target (the logo) is absent it raises a
timeout instead of being a no-op — it clicks without a presence check. -/
theorem clickLogo_raises_on_absent :
    HeaderComponent.build.clickLogo stEmpty = .error .timeout := rfl

/-- C1 amended: every HeaderComponent and FooterComponent method EXCEPT
`clickLogo` checks presence, so invoked on a live page where its target is
absent it neither raises nor performs any action (empty trace: the page
state is untouched); `clickLogo` clicks unconditionally and times out on an
absent logo. -/
theorem component_ops_noop_on_absent :
    ∀ (h : HeaderComponent) (f : FooterComponent) (st : PageState) (q lt pf : String),
      st.closed = false →
      (h.searchInput.resolve st = [] → h.search q st = .ok ((), [])) ∧
      (h.userMenu.resolve st = [] → h.openUserMenu st = .ok ((), [])) ∧
      (h.userMenu.resolve st = [] → h.logoutBtn.resolve st = [] →
        h.logout st = .ok ((), [])) ∧
      ((h.navigationLinks.filterHasText lt).resolve st = [] →
        h.navigateTo lt st = .ok ((), [])) ∧
      (h.logo.resolve st = [] → h.isVisible st = .ok (false, [])) ∧
      ((f.footerLinks.filterHasText lt).resolve st = [] →
        f.clickLink lt st = .ok ((), [])) ∧
      (f.copyrightText.resolve st = [] → f.getCopyrightText st = .ok (none, [])) ∧
      ((f.socialLinks.filterHasText pf).resolve st = [] →
        f.clickSocialLink pf st = .ok ((), [])) ∧
      (f.footerLinks.resolve st = [] → f.getAllLinks st = .ok ([], [])) := by
  intro h f st q lt pf hc
  refine ⟨?_, ?_, ?_, ?_, ?_, ?_, ?_, ?_, ?_⟩
  · intro hr
    simp [HeaderComponent.search, PwM.bind, PwM.pure, Locator.count, hc, hr]
  · intro hr
    simp [HeaderComponent.openUserMenu, PwM.bind, PwM.pure, Locator.count, hc, hr]
  · intro hr1 hr2
    simp [HeaderComponent.logout, HeaderComponent.openUserMenu, PwM.bind, PwM.pure,
      Locator.count, hc, hr1, hr2]
  · intro hr
    simp [HeaderComponent.navigateTo, PwM.bind, PwM.pure, Locator.count, hc, hr]
  · intro hr
    simp [HeaderComponent.isVisible, PwM.catchFalse, Locator.isVisibleRaw, hc, hr]
  · intro hr
    simp [FooterComponent.clickLink, PwM.bind, PwM.pure, Locator.count, hc, hr]
  · intro hr
    simp [FooterComponent.getCopyrightText, PwM.bind, PwM.pure, Locator.count, hc, hr]
  · intro hr
    simp [FooterComponent.clickSocialLink, PwM.bind, PwM.pure, Locator.count, hc, hr]
  · intro hr
    simp [FooterComponent.getAllLinks, textsAt, PwM.bind, PwM.pure, Locator.count, hc, hr]

/-- C1 witness: every presence-checked method evaluated as a no-op on the
concrete empty page. -/
theorem component_ops_noop_on_absent_witness :
    HeaderComponent.build.search "shoes" stEmpty = .ok ((), []) ∧
    HeaderComponent.build.openUserMenu stEmpty = .ok ((), []) ∧
    HeaderComponent.build.logout stEmpty = .ok ((), []) ∧
    HeaderComponent.build.navigateTo "Home" stEmpty = .ok ((), []) ∧
    HeaderComponent.build.isVisible stEmpty = .ok (false, []) ∧
    FooterComponent.build.clickLink "Home" stEmpty = .ok ((), []) ∧
    FooterComponent.build.getCopyrightText stEmpty = .ok (none, []) ∧
    FooterComponent.build.clickSocialLink "facebook" stEmpty = .ok ((), []) ∧
    FooterComponent.build.getAllLinks stEmpty = .ok ([], []) := by
  obtain ⟨h1, h2, h3, h4, h5, h6, h7, h8, h9⟩ :=
    component_ops_noop_on_absent HeaderComponent.build FooterComponent.build stEmpty
      "shoes" "Home" "facebook" rfl
  exact ⟨h1 rfl, h2 rfl, h3 rfl rfl, h4 rfl, h5 rfl, h6 rfl, h7 rfl, h8 rfl, h9 rfl⟩

/-- C4 counterexample: `search` is a Component Object method that performs
TWO user-facing actions in one call (a fill and an Enter key press) when
the search input is present. -/
theorem search_performs_two_actions :
    HeaderComponent.build.search "shoes" stSearch =
      .ok ((), [.fill HeaderComponent.build.searchInput "shoes", .press "Enter"]) ∧
    (traceOf (HeaderComponent.build.search "shoes" stSearch)).length = 2 := by
  constructor <;> rfl

/-- C4 amended: every HeaderComponent and FooterComponent method performs
at most one user-facing action per call, except `search` (up to two: a fill
and a key press) and `logout` (up to two clicks: opening the user menu and
clicking the logout button). -/
theorem component_ops_action_bounds :
    ∀ (h : HeaderComponent) (f : FooterComponent) (st : PageState) (q lt pf : String),
      (traceOf (h.clickLogo st)).length ≤ 1 ∧
      (traceOf (h.search q st)).length ≤ 2 ∧
      (traceOf (h.openUserMenu st)).length ≤ 1 ∧
      (traceOf (h.logout st)).length ≤ 2 ∧
      (traceOf (h.navigateTo lt st)).length ≤ 1 ∧
      (traceOf (h.isVisible st)).length = 0 ∧
      (traceOf (f.clickLink lt st)).length ≤ 1 ∧
      (traceOf (f.getCopyrightText st)).length = 0 ∧
      (traceOf (f.clickSocialLink pf st)).length ≤ 1 ∧
      (traceOf (f.isVisible st)).length = 0 ∧
      (traceOf (f.getAllLinks st)).length = 0 := by
  intro h f st q lt pf
  refine ⟨?_, ?_, ?_, ?_, ?_, ?_, ?_, ?_, ?_, ?_, ?_⟩
  · unfold HeaderComponent.clickLogo Locator.click
    split
    · simp [traceOf]
    · cases h.logo.resolve st <;> simp [traceOf]
  · by_cases hc : st.closed
    · simp [HeaderComponent.search, PwM.bind, Locator.count, hc, traceOf]
    · simp only [Bool.not_eq_true] at hc
      cases hr : h.searchInput.resolve st with
      | nil =>
        simp [HeaderComponent.search, PwM.bind, PwM.pure, Locator.count, hc, hr, traceOf]
      | cons e es =>
        simp [HeaderComponent.search, PwM.bind, PwM.pure, Locator.count, Locator.fill,
          Keyboard.press, hc, hr, traceOf]
  · by_cases hcl : st.closed
    · simp [HeaderComponent.openUserMenu, PwM.bind, Locator.count, hcl, traceOf]
    · simp only [Bool.not_eq_true] at hcl
      cases hr : h.userMenu.resolve st with
      | nil =>
        simp [HeaderComponent.openUserMenu, PwM.bind, PwM.pure, Locator.count, hcl, hr, traceOf]
      | cons e es =>
        simp [HeaderComponent.openUserMenu, PwM.bind, PwM.pure, Locator.count, Locator.click,
          hcl, hr, traceOf]
  · by_cases hcl : st.closed
    · simp [HeaderComponent.logout, HeaderComponent.openUserMenu, PwM.bind, Locator.count,
        hcl, traceOf]
    · simp only [Bool.not_eq_true] at hcl
      cases hr1 : h.userMenu.resolve st <;> cases hr2 : h.logoutBtn.resolve st <;>
        simp [HeaderComponent.logout, HeaderComponent.openUserMenu, PwM.bind, PwM.pure,
          Locator.count, Locator.click, hcl, hr1, hr2, traceOf]
  · by_cases hcl : st.closed
    · simp [HeaderComponent.navigateTo, PwM.bind, Locator.count, hcl, traceOf]
    · simp only [Bool.not_eq_true] at hcl
      cases hr : (h.navigationLinks.filterHasText lt).resolve st with
      | nil =>
        simp [HeaderComponent.navigateTo, PwM.bind, PwM.pure, Locator.count, hcl, hr, traceOf]
      | cons e es =>
        simp [HeaderComponent.navigateTo, PwM.bind, PwM.pure, Locator.count, Locator.click,
          hcl, hr, traceOf]
  · have := silent_catchFalse (silent_isVisibleRaw h.logo) st
    simpa [HeaderComponent.isVisible] using congrArg List.length this
  · by_cases hcl : st.closed
    · simp [FooterComponent.clickLink, PwM.bind, Locator.count, hcl, traceOf]
    · simp only [Bool.not_eq_true] at hcl
      cases hr : (f.footerLinks.filterHasText lt).resolve st with
      | nil =>
        simp [FooterComponent.clickLink, PwM.bind, PwM.pure, Locator.count, hcl, hr, traceOf]
      | cons e es =>
        simp [FooterComponent.clickLink, PwM.bind, PwM.pure, Locator.count, Locator.click,
          hcl, hr, traceOf]
  · have : silent (PwM.bind f.copyrightText.count
        (fun c => if c > 0 then f.copyrightText.textContent else PwM.pure none)) :=
      silent_bind (silent_count _) (fun c => by
        by_cases hgt : c > 0
        · simpa [hgt] using silent_textContent f.copyrightText
        · simpa [hgt] using silent_pure (α := Option String) none)
    simpa [FooterComponent.getCopyrightText] using congrArg List.length (this st)
  · by_cases hcl : st.closed
    · simp [FooterComponent.clickSocialLink, PwM.bind, Locator.count, hcl, traceOf]
    · simp only [Bool.not_eq_true] at hcl
      cases hr : (f.socialLinks.filterHasText pf).resolve st with
      | nil =>
        simp [FooterComponent.clickSocialLink, PwM.bind, PwM.pure, Locator.count, hcl, hr,
          traceOf]
      | cons e es =>
        simp [FooterComponent.clickSocialLink, PwM.bind, PwM.pure, Locator.count,
          Locator.click, hcl, hr, traceOf]
  · have := silent_catchFalse (silent_isVisibleRaw f.footer) st
    simpa [FooterComponent.isVisible] using congrArg List.length this
  · have hts : ∀ is : List Nat, silent (textsAt f.footerLinks is) := by
      intro is
      induction is with
      | nil => exact silent_pure []
      | cons i is ih =>
        exact silent_bind (silent_textContent _) (fun t =>
          silent_bind ih (fun ts => silent_pure (t :: ts)))
    have : silent (PwM.bind f.footerLinks.count
        (fun c => textsAt f.footerLinks (List.range c))) :=
      silent_bind (silent_count _) (fun c => hts (List.range c))
    simpa [FooterComponent.getAllLinks] using congrArg List.length (this st)

/-- C4 witness: the bounds evaluated at the concrete search-input page. -/
theorem component_ops_action_bounds_witness :
    (traceOf (HeaderComponent.build.clickLogo stSearch)).length ≤ 1 ∧
    (traceOf (HeaderComponent.build.search "shoes" stSearch)).length ≤ 2 ∧
    (traceOf (HeaderComponent.build.openUserMenu stSearch)).length ≤ 1 ∧
    (traceOf (HeaderComponent.build.logout stSearch)).length ≤ 2 ∧
    (traceOf (HeaderComponent.build.navigateTo "Home" stSearch)).length ≤ 1 ∧
    (traceOf (HeaderComponent.build.isVisible stSearch)).length = 0 ∧
    (traceOf (FooterComponent.build.clickLink "Home" stSearch)).length ≤ 1 ∧
    (traceOf (FooterComponent.build.getCopyrightText stSearch)).length = 0 ∧
    (traceOf (FooterComponent.build.clickSocialLink "x" stSearch)).length ≤ 1 ∧
    (traceOf (FooterComponent.build.isVisible stSearch)).length = 0 ∧
    (traceOf (FooterComponent.build.getAllLinks stSearch)).length = 0 :=
  component_ops_action_bounds HeaderComponent.build FooterComponent.build stSearch
    "shoes" "Home" "x"

/-!  C10: the shared text-getter shape and its behaviour. -/

/-- The getter shape all four text getters share:
`if (await locator.count() > 0) return locator.textContent(); return null`. -/
def patternGetter (l : Locator) : PwM (Option String) := do
  let c ← l.count
  if c > 0 then
    l.textContent
  else
    pure none

/-- On a live page the pattern getter returns the first match's text, or
null when nothing matches, with no action and no error. -/
theorem patternGetter_run (l : Locator) (st : PageState) (hc : st.closed = false) :
    patternGetter l st = .ok ((l.resolve st).head?.map Element.text, []) := by
  cases hr : l.resolve st with
  | nil => simp [patternGetter, PwM.bind, PwM.pure, Locator.count, hc, hr]
  | cons e es =>
    simp [patternGetter, PwM.bind, PwM.pure, Locator.count, Locator.textContent, hc, hr]

/-- Null exactly on absence, first match's text otherwise. -/
theorem patternGetter_null_iff (l : Locator) (st : PageState) (hc : st.closed = false) :
    (patternGetter l st = .ok (none, []) ↔ l.resolve st = []) ∧
    ∀ e es, l.resolve st = e :: es → patternGetter l st = .ok (some e.text, []) := by
  have h := patternGetter_run l st hc
  constructor
  · rw [h]
    cases hr : l.resolve st with
    | nil => simp
    | cons e es => simp
  · intro e es hr
    rw [h, hr]
    rfl

/-- C10: each text getter (FooterComponent.getCopyrightText,
ProductPage.getProductTitle, LoginPage.getErrorMessage,
DashboardPage.getWelcomeMessage) returns null exactly when its locator
matches zero elements, returns the matched element's text content
otherwise, and never raises on absence (live page: the result is always
`.ok` with an empty trace). -/
theorem text_getters_null_iff_absent :
    ∀ (f : FooterComponent) (p : ProductPage) (lp : LoginPage) (d : DashboardPage)
      (st : PageState), st.closed = false →
      ((f.getCopyrightText st = .ok (none, []) ↔ f.copyrightText.resolve st = []) ∧
        ∀ e es, f.copyrightText.resolve st = e :: es →
          f.getCopyrightText st = .ok (some e.text, [])) ∧
      ((p.getProductTitle st = .ok (none, []) ↔ p.productTitle.resolve st = []) ∧
        ∀ e es, p.productTitle.resolve st = e :: es →
          p.getProductTitle st = .ok (some e.text, [])) ∧
      ((lp.getErrorMessage st = .ok (none, []) ↔ lp.errorMessage.resolve st = []) ∧
        ∀ e es, lp.errorMessage.resolve st = e :: es →
          lp.getErrorMessage st = .ok (some e.text, [])) ∧
      ((d.getWelcomeMessage st = .ok (none, []) ↔ d.welcomeMessage.resolve st = []) ∧
        ∀ e es, d.welcomeMessage.resolve st = e :: es →
          d.getWelcomeMessage st = .ok (some e.text, [])) := by
  intro f p lp d st hc
  exact ⟨patternGetter_null_iff f.copyrightText st hc,
    patternGetter_null_iff p.productTitle st hc,
    patternGetter_null_iff lp.errorMessage st hc,
    patternGetter_null_iff d.welcomeMessage st hc⟩

/-- C10 witness: on the concrete empty page every getter evaluates to null. -/
theorem text_getters_null_iff_absent_witness :
    FooterComponent.build.getCopyrightText stEmpty = .ok (none, []) ∧
    productPage0.getProductTitle stEmpty = .ok (none, []) ∧
    LoginPage.build.getErrorMessage stEmpty = .ok (none, []) ∧
    (DashboardPage.fields basePage0).getWelcomeMessage stEmpty = .ok (none, []) := by
  obtain ⟨⟨hf, -⟩, ⟨hp, -⟩, ⟨hl, -⟩, ⟨hd, -⟩⟩ :=
    text_getters_null_iff_absent FooterComponent.build productPage0 LoginPage.build
      (DashboardPage.fields basePage0) stEmpty rfl
  exact ⟨hf.mpr rfl, hp.mpr rfl, hl.mpr rfl, hd.mpr rfl⟩

/-!  C3: `addToCartWithOptions` applies exactly the options whose value is
truthy and whose control exists. -/

/-- A chained locator resolves to nothing when its outer locator does. -/
theorem child_resolve_nil (a b : Locator) (st : PageState) (h : a.resolve st = []) :
    (Locator.child a b).resolve st = [] := by
  simp [Locator.resolve, h]

/-- Running a bind whose sides finished. -/
theorem bind_ok {α β : Type} {m : PwM α} {f : α → PwM β} {st : PageState}
    {a : α} {tra : List Effect} {b : β} {trb : List Effect}
    (hm : m st = .ok (a, tra)) (hf : f a st = .ok (b, trb)) :
    PwM.bind m f st = .ok (b, tra ++ trb) := by
  unfold PwM.bind
  rw [hm]
  dsimp only
  rw [hf]

/-- The actions `addToCartWithOptions` performs, as the spec words them:
each option is applied exactly when its value is provided and truthy AND a
matching on-page control exists; the add-to-cart click follows whenever
the button exists, regardless of which options were applied. -/
def expectedCartTrace (p : ProductPage) (options : CartOptions) (st : PageState) :
    List Effect :=
  (if truthyNat options.quantity = true ∧ p.quantityInput.resolve st ≠ [] then
    [.fill p.quantityInput (toString (options.quantity.getD 0))] else []) ++
  (if truthyStr options.size = true ∧ p.sizeSelector.resolve st ≠ [] then
    [.selectOption p.sizeSelector (options.size.getD "")] else []) ++
  (if truthyStr options.color = true ∧
      (p.colorOption (options.color.getD "")).resolve st ≠ [] then
    [.click (p.colorOption (options.color.getD ""))] else []) ++
  (if p.addToCartBtn.resolve st ≠ [] then [.click p.addToCartBtn] else [])

theorem applyQuantity_run (p : ProductPage) (options : CartOptions) (st : PageState)
    (hc : st.closed = false) :
    p.applyQuantity options st = .ok ((),
      if truthyNat options.quantity = true ∧ p.quantityInput.resolve st ≠ [] then
        [.fill p.quantityInput (toString (options.quantity.getD 0))] else []) := by
  cases hq : truthyNat options.quantity with
  | false => simp [ProductPage.applyQuantity, PwM.pure, hq]
  | true =>
    cases hr : p.quantityInput.resolve st with
    | nil =>
      simp [ProductPage.applyQuantity, PwM.bind, PwM.pure, Locator.count, hc, hq, hr]
    | cons e es =>
      simp [ProductPage.applyQuantity, PwM.bind, PwM.pure, Locator.count, Locator.fill,
        hc, hq, hr]

theorem applySize_run (p : ProductPage) (options : CartOptions) (st : PageState)
    (hc : st.closed = false) :
    p.applySize options st = .ok ((),
      if truthyStr options.size = true ∧ p.sizeSelector.resolve st ≠ [] then
        [.selectOption p.sizeSelector (options.size.getD "")] else []) := by
  cases hs : truthyStr options.size with
  | false => simp [ProductPage.applySize, PwM.pure, hs]
  | true =>
    cases hr : p.sizeSelector.resolve st with
    | nil =>
      simp [ProductPage.applySize, PwM.bind, PwM.pure, Locator.count, hc, hs, hr]
    | cons e es =>
      simp [ProductPage.applySize, PwM.bind, PwM.pure, Locator.count, Locator.selectOption,
        hc, hs, hr]

theorem applyColor_run (p : ProductPage) (options : CartOptions) (st : PageState)
    (hc : st.closed = false) :
    p.applyColor options st = .ok ((),
      if truthyStr options.color = true ∧
          (p.colorOption (options.color.getD "")).resolve st ≠ [] then
        [.click (p.colorOption (options.color.getD ""))] else []) := by
  cases hcl : truthyStr options.color with
  | false => simp [ProductPage.applyColor, PwM.pure, hcl]
  | true =>
    cases hr : p.colorSelector.resolve st with
    | nil =>
      have hco : (p.colorOption (options.color.getD "")).resolve st = [] :=
        child_resolve_nil _ _ _ hr
      simp [ProductPage.applyColor, PwM.bind, PwM.pure, Locator.count, hc, hcl, hr, hco]
    | cons e es =>
      cases hco : (p.colorOption (options.color.getD "")).resolve st with
      | nil =>
        simp [ProductPage.applyColor, PwM.bind, PwM.pure, Locator.count, hc, hcl, hr, hco]
      | cons e2 es2 =>
        simp [ProductPage.applyColor, PwM.bind, PwM.pure, Locator.count, Locator.click,
          hc, hcl, hr, hco]

theorem addToCart_run (p : ProductPage) (st : PageState) (hc : st.closed = false) :
    p.addToCart st = .ok ((),
      if p.addToCartBtn.resolve st ≠ [] then [.click p.addToCartBtn] else []) := by
  cases hr : p.addToCartBtn.resolve st with
  | nil => simp [ProductPage.addToCart, PwM.bind, PwM.pure, Locator.count, hc, hr]
  | cons e es =>
    simp [ProductPage.addToCart, PwM.bind, PwM.pure, Locator.count, Locator.click, hc, hr]

/-- C3 counterexample: on `stQty` the quantity control exists and the call
provides `quantity: 0`, yet no option is applied (the trace is empty):
JavaScript truthiness (`options.quantity && ...`) skips a provided zero, so
"applied if and only if a value is provided and the control exists" fails. -/
theorem quantity_zero_provided_not_applied :
    productPage0.addToCartWithOptions ⟨some 0, none, none⟩ stQty = .ok ((), []) ∧
    productPage0.quantityInput.resolve stQty = [⟨1, "", true⟩] := by
  constructor <;> rfl

/-- C3 amended: each option is applied if and only if its value is provided
AND truthy (non-zero quantity, non-empty size/color) AND its matching
on-page control exists (for color: the `[data-color=...]` option inside the
selector); the add-to-cart click is attempted afterwards regardless, and
clicks whenever the button exists.  The full action trace equals
`expectedCartTrace`. -/
theorem addToCartWithOptions_applies_iff :
    ∀ (p : ProductPage) (options : CartOptions) (st : PageState),
      st.closed = false →
      p.addToCartWithOptions options st = .ok ((), expectedCartTrace p options st) := by
  intro p options st hc
  have h1 := applyQuantity_run p options st hc
  have h2 := applySize_run p options st hc
  have h3 := applyColor_run p options st hc
  have h4 := addToCart_run p st hc
  have h34 : PwM.bind (p.applyColor options) (fun _ => p.addToCart) st =
      .ok ((),
        (if truthyStr options.color = true ∧
            (p.colorOption (options.color.getD "")).resolve st ≠ [] then
          [.click (p.colorOption (options.color.getD ""))] else []) ++
        (if p.addToCartBtn.resolve st ≠ [] then [.click p.addToCartBtn] else [])) :=
    bind_ok h3 h4
  have h234 : PwM.bind (p.applySize options)
      (fun _ => PwM.bind (p.applyColor options) (fun _ => p.addToCart)) st =
      .ok ((),
        (if truthyStr options.size = true ∧ p.sizeSelector.resolve st ≠ [] then
          [.selectOption p.sizeSelector (options.size.getD "")] else []) ++
        ((if truthyStr options.color = true ∧
            (p.colorOption (options.color.getD "")).resolve st ≠ [] then
          [.click (p.colorOption (options.color.getD ""))] else []) ++
        (if p.addToCartBtn.resolve st ≠ [] then [.click p.addToCartBtn] else []))) :=
    bind_ok h2 h34
  have hfinal : PwM.bind (p.applyQuantity options)
      (fun _ => PwM.bind (p.applySize options)
        (fun _ => PwM.bind (p.applyColor options) (fun _ => p.addToCart))) st =
      .ok ((),
        (if truthyNat options.quantity = true ∧ p.quantityInput.resolve st ≠ [] then
          [.fill p.quantityInput (toString (options.quantity.getD 0))] else []) ++
        ((if truthyStr options.size = true ∧ p.sizeSelector.resolve st ≠ [] then
          [.selectOption p.sizeSelector (options.size.getD "")] else []) ++
        ((if truthyStr options.color = true ∧
            (p.colorOption (options.color.getD "")).resolve st ≠ [] then
          [.click (p.colorOption (options.color.getD ""))] else []) ++
        (if p.addToCartBtn.resolve st ≠ [] then [.click p.addToCartBtn] else [])))) :=
    bind_ok h1 h234
  unfold ProductPage.addToCartWithOptions expectedCartTrace
  simp only [PwM.bind_def]
  simpa [List.append_assoc] using hfinal

/-- C3 witness: on the full product page, quantity 2, size M and color red
are all applied and the add-to-cart button is clicked, in source order. -/
theorem addToCartWithOptions_applies_iff_witness :
    stFull.closed = false ∧
    productPage0.addToCartWithOptions ⟨some 2, some "M", some "red"⟩ stFull =
      .ok ((), expectedCartTrace productPage0 ⟨some 2, some "M", some "red"⟩ stFull) ∧
    expectedCartTrace productPage0 ⟨some 2, some "M", some "red"⟩ stFull =
      [.fill productPage0.quantityInput "2",
       .selectOption productPage0.sizeSelector "M",
       .click (productPage0.colorOption "red"),
       .click productPage0.addToCartBtn] :=
  ⟨rfl, addToCartWithOptions_applies_iff productPage0 ⟨some 2, some "M", some "red"⟩ stFull rfl,
    by decide⟩

/-!  C7: lookup/assignment/spread lemmas for JSON objects, and the
round-trip behaviour of the mocked posts route. -/

theorem JsObj.get_cons (k' : String) (v : JVal) (rest : JsObj) (k : String) :
    JsObj.get ((k', v) :: rest) k = if k' = k then some v else rest.get k := rfl

theorem JsObj.get_eq_none_of_not_mem (o : JsObj) (k : String)
    (h : k ∉ List.map Prod.fst o) : o.get k = none := by
  induction o with
  | nil => rfl
  | cons kv rest ih =>
    obtain ⟨k', v⟩ := kv
    simp only [List.map_cons, List.mem_cons] at h
    push_neg at h
    obtain ⟨h1, h2⟩ := h
    rw [JsObj.get_cons, if_neg (fun he => h1 he.symm)]
    exact ih h2

theorem JsObj.get_set_self (o : JsObj) (k : String) (v : JVal) :
    (o.set k v).get k = some v := by
  induction o with
  | nil => simp [JsObj.set, JsObj.get]
  | cons kv rest ih =>
    obtain ⟨k', w⟩ := kv
    by_cases h : k' = k
    · simp [JsObj.set, JsObj.get, h]
    · simp [JsObj.set, JsObj.get, h, ih]

theorem JsObj.get_set_other (o : JsObj) (k k' : String) (v : JVal) (h : k' ≠ k) :
    (o.set k v).get k' = o.get k' := by
  have h' : ¬(k = k') := fun he => h he.symm
  induction o with
  | nil => simp [JsObj.set, JsObj.get, h']
  | cons kv rest ih =>
    obtain ⟨k'', w⟩ := kv
    by_cases he : k'' = k
    · subst he
      simp [JsObj.set, JsObj.get, h']
    · simp [JsObj.set, JsObj.get, he, ih]

theorem JsObj.get_spreadInto_of_none (obj : JsObj) (base : JsObj) (k : String)
    (h : obj.get k = none) :
    (JsObj.spreadInto base obj).get k = base.get k := by
  induction obj generalizing base with
  | nil => rfl
  | cons kv rest ih =>
    obtain ⟨k', v⟩ := kv
    rw [JsObj.get_cons] at h
    by_cases he : k' = k
    · simp [he] at h
    · rw [if_neg he] at h
      show JsObj.get (JsObj.spreadInto (JsObj.set base k' v) rest) k = _
      rw [ih (JsObj.set base k' v) h,
        JsObj.get_set_other base k' k v (fun hc => he hc.symm)]

theorem JsObj.get_spreadInto_of_mem (obj : JsObj) (base : JsObj) (k : String) (v : JVal) :
    (List.map Prod.fst obj).Nodup → obj.get k = some v →
    (JsObj.spreadInto base obj).get k = some v := by
  induction obj generalizing base with
  | nil => intro _ h; simp [JsObj.get] at h
  | cons kv rest ih =>
    intro hnd h
    obtain ⟨k', w⟩ := kv
    rw [List.map_cons, List.nodup_cons] at hnd
    obtain ⟨hk', hndr⟩ := hnd
    by_cases he : k' = k
    · rw [JsObj.get_cons, if_pos he] at h
      have hw : w = v := by injection h
      have hk : k ∉ List.map Prod.fst rest := he ▸ hk'
      have hrest : JsObj.get rest k = none := JsObj.get_eq_none_of_not_mem rest k hk
      show JsObj.get (JsObj.spreadInto (JsObj.set base k' w) rest) k = some v
      rw [JsObj.get_spreadInto_of_none rest (JsObj.set base k' w) k hrest, he, hw]
      exact JsObj.get_set_self base k v
    · rw [JsObj.get_cons, if_neg he] at h
      show JsObj.get (JsObj.spreadInto (JsObj.set base k' w) rest) k = some v
      exact ih (JsObj.set base k' w) hndr h

/-- The fulfilled response body of the mocked posts route:
`{ id: 999, ...postData, userId: 1 }`. -/
def fulfilledBody (postData : JsObj) : JsObj :=
  (JsObj.spreadInto [("id", .n 999)] postData).set "userId" (.n 1)

/-- The payload of the scenario, plus a `userId` the round trip destroys. -/
def pl7 : JsObj :=
  [("title", .s "Test Post"), ("body", .s "Test Body"), ("userId", .n 5)]

/-- C7 counterexample: this posted payload does NOT round-trip: its
`userId: 5` comes back as `userId: 1`, because the object literal assigns
`userId: 1` after spreading the payload.  So the fulfilled body is not the
posted payload merged with a generated id. -/
theorem mock_posts_payload_field_changed :
    mockPostsHandler pl7 = .ok (201,
      [("id", JVal.n 999), ("title", JVal.s "Test Post"), ("body", JVal.s "Test Body"),
        ("userId", JVal.n 1)]) ∧
    pl7.get "userId" = some (.n 5) ∧
    JsObj.get [("id", JVal.n 999), ("title", JVal.s "Test Post"),
      ("body", JVal.s "Test Body"), ("userId", JVal.n 1)] "userId" = some (.n 1) ∧
    JVal.n 1 ≠ JVal.n 5 := by
  refine ⟨rfl, rfl, rfl, ?_⟩
  decide

/-- C7 amended: for a validated payload (it has `title` and `body`, the
keys unique as `JSON.parse` yields them), the route fulfills status 201
with a body equal to the payload merged with generated `id: 999` — except
that `userId` is forced to 1: every payload field other than `userId`
appears unchanged, a payload `id` survives, and a missing `id` becomes 999. -/
theorem mock_posts_roundtrip :
    ∀ postData : JsObj, (List.map Prod.fst postData).Nodup →
      (postData.get "title").isSome = true → (postData.get "body").isSome = true →
      mockPostsHandler postData = .ok (201, fulfilledBody postData) ∧
      (fulfilledBody postData).get "userId" = some (.n 1) ∧
      (∀ k, k ≠ "userId" → k ≠ "id" →
        (fulfilledBody postData).get k = postData.get k) ∧
      (∀ v, postData.get "id" = some v → (fulfilledBody postData).get "id" = some v) ∧
      (postData.get "id" = none → (fulfilledBody postData).get "id" = some (.n 999)) := by
  intro postData hnd hT hB
  refine ⟨?_, ?_, ?_, ?_, ?_⟩
  · simp [mockPostsHandler, fulfilledBody, hT, hB]
  · exact JsObj.get_set_self _ _ _
  · intro k hkU hkI
    unfold fulfilledBody
    rw [JsObj.get_set_other _ _ _ _ hkU]
    cases hpk : postData.get k with
    | some v => exact JsObj.get_spreadInto_of_mem postData _ k v hnd hpk
    | none =>
      rw [JsObj.get_spreadInto_of_none postData _ k hpk]
      rw [JsObj.get_cons, if_neg (fun he => hkI he.symm)]
      rfl
  · intro v hid
    unfold fulfilledBody
    rw [JsObj.get_set_other _ _ _ _ (by decide)]
    exact JsObj.get_spreadInto_of_mem postData _ "id" v hnd hid
  · intro hid
    unfold fulfilledBody
    rw [JsObj.get_set_other _ _ _ _ (by decide)]
    rw [JsObj.get_spreadInto_of_none postData _ "id" hid]
    rfl

/-- C7 witness: a concrete validated payload without an `id`: every field
except `userId` survives, `id: 999` and `userId: 1` are added. -/
theorem mock_posts_roundtrip_witness :
    ((List.map Prod.fst [("title", JVal.s "A"), ("body", JVal.s "B"),
        ("x", JVal.n 7)]).Nodup ∧
      (JsObj.get [("title", JVal.s "A"), ("body", JVal.s "B"), ("x", JVal.n 7)]
        "title").isSome = true ∧
      (JsObj.get [("title", JVal.s "A"), ("body", JVal.s "B"), ("x", JVal.n 7)]
        "body").isSome = true) ∧
    (mockPostsHandler [("title", JVal.s "A"), ("body", JVal.s "B"), ("x", JVal.n 7)] =
        .ok (201, fulfilledBody [("title", JVal.s "A"), ("body", JVal.s "B"),
          ("x", JVal.n 7)]) ∧
      (fulfilledBody [("title", JVal.s "A"), ("body", JVal.s "B"), ("x", JVal.n 7)]).get
        "userId" = some (.n 1) ∧
      (∀ k, k ≠ "userId" → k ≠ "id" →
        (fulfilledBody [("title", JVal.s "A"), ("body", JVal.s "B"), ("x", JVal.n 7)]).get k =
          JsObj.get [("title", JVal.s "A"), ("body", JVal.s "B"), ("x", JVal.n 7)] k) ∧
      (∀ v, JsObj.get [("title", JVal.s "A"), ("body", JVal.s "B"), ("x", JVal.n 7)] "id" =
          some v →
        (fulfilledBody [("title", JVal.s "A"), ("body", JVal.s "B"), ("x", JVal.n 7)]).get
          "id" = some v) ∧
      (JsObj.get [("title", JVal.s "A"), ("body", JVal.s "B"), ("x", JVal.n 7)] "id" = none →
        (fulfilledBody [("title", JVal.s "A"), ("body", JVal.s "B"), ("x", JVal.n 7)]).get
          "id" = some (.n 999))) :=
  ⟨⟨by decide, by decide, by decide⟩,
    mock_posts_roundtrip [("title", JVal.s "A"), ("body", JVal.s "B"), ("x", JVal.n 7)]
      (by decide) (by decide) (by decide)⟩
